import Mathlib

set_option maxRecDepth 100000
set_option maxHeartbeats 2000000

/-!
Verification development for the popfly-mcp-snowflake server.

The Python sources are shallowly embedded: strings are Lean `String`
(manipulated through their `List Char` data), regular-expression scans are
modelled by executable matchers specialised to the fixed patterns that the
code uses, stateful components (the connection pool) become explicit state
passing with a step relation, and fallible code returns `Option`/`Except`.
-/

/-! ## Python string primitives (ASCII fragment)

`str.upper`, `str.strip`, `\s`, `\w`, `str.split()` and friends, restricted
to the ASCII behaviour exercised by the SQL strings the code manipulates. -/

/-- Python `\s` (ASCII): space, tab, newline, carriage return, vertical tab,
form feed. -/
def isPySpace (c : Char) : Bool :=
  c = ' ' || c = '\t' || c = '\n' || c = '\r' ||
    c = Char.ofNat 11 || c = Char.ofNat 12

/-- Python `\w` (ASCII): letters, digits, underscore. -/
def isPyWord (c : Char) : Bool :=
  (('A' ≤ c && c ≤ 'Z') || ('a' ≤ c && c ≤ 'z') ||
   ('0' ≤ c && c ≤ '9') || c = '_')

/-- `.` in a Python regex without `re.DOTALL`: any character except `\n`. -/
def isNotNl (c : Char) : Bool := c ≠ '\n'

/-- ASCII uppercasing of one character (Python `str.upper` on ASCII). -/
def pyUpperChar (c : Char) : Char :=
  if 'a' ≤ c && c ≤ 'z' then Char.ofNat (c.toNat - 32) else c

def pyUpperL (cs : List Char) : List Char := cs.map pyUpperChar

/-- Python `str.strip()` on a character list. -/
def pyStripL (cs : List Char) : List Char :=
  ((cs.dropWhile isPySpace).reverse.dropWhile isPySpace).reverse

def pyUpper (s : String) : String := ⟨pyUpperL s.data⟩

def pyStrip (s : String) : String := ⟨pyStripL s.data⟩

/-- The single-quote character, written out by code point. -/
def sqChar : Char := Char.ofNat 39

/-- The single-quote character as a string. -/
def sqStr : String := String.singleton sqChar

/-! ## A matcher for the fixed regular expressions of the validator

Each pattern that the code passes to `re.search` is a concatenation of
string literals, `\s+`/`\s*`/`\w+` character-class repetitions and `.*`
runs.  A pattern is embedded as a list of such tokens; `reSearch` decides
whether the pattern matches anywhere in the subject string, which is
exactly what `re.search`'s truthiness gives the Python code. -/

inductive RTok where
  | lit (cs : List Char)
  | plus (p : Char → Bool)
  | star (p : Char → Bool)

/-- Does the token sequence match some prefix of `cs`?  Repetition tokens
try every admissible split, so this is the pure existence of a match,
which coincides with Python's backtracking search semantics. -/
def matchToks : List RTok → List Char → Bool
  | [], _ => true
  | .lit l :: ts, cs => l.isPrefixOf cs && matchToks ts (cs.drop l.length)
  | .star p :: ts, cs =>
      (List.range ((cs.takeWhile p).length + 1)).any
        (fun i => matchToks ts (cs.drop i))
  | .plus p :: ts, cs =>
      match cs with
      | [] => false
      | c :: rest =>
          p c &&
            (List.range ((rest.takeWhile p).length + 1)).any
              (fun i => matchToks ts (rest.drop i))

/-- `re.search`: does the token pattern match starting at any position? -/
def reSearch (ts : List RTok) : List Char → Bool
  | [] => matchToks ts []
  | c :: rest => matchToks ts (c :: rest) || reSearch ts rest

/-- Decidable equality of remote-call results. -/
instance {ε α : Type} [DecidableEq ε] [DecidableEq α] :
    DecidableEq (Except ε α) := fun a b =>
  match a, b with
  | .ok x, .ok y =>
      if h : x = y then isTrue (by rw [h])
      else isFalse (fun hc => h (Except.ok.inj hc))
  | .error x, .error y =>
      if h : x = y then isTrue (by rw [h])
      else isFalse (fun hc => h (Except.error.inj hc))
  | .ok _, .error _ => isFalse (fun hc => Except.noConfusion hc)
  | .error _, .ok _ => isFalse (fun hc => Except.noConfusion hc)

namespace SqlValidator

/-- Result value of the validator (`SqlValidationResult` in
`validators/sql_validator.py`). -/
structure SqlValidationResult where
  is_valid : Bool
  error : Option String
  warnings : List String
deriving DecidableEq, Repr

/-- `SqlValidator.DANGEROUS_PATTERNS`, each paired with its embedded token
form.  The subject string has already been upper-cased, and the scan runs
with `re.IGNORECASE`, so literal letters are embedded upper-case. -/
def DANGEROUS_PATTERNS : List (String × List RTok) :=
  [ ("DROP\\s+TABLE",
      [.lit ("DROP".data), .plus isPySpace, .lit ("TABLE".data)]),
    ("DELETE\\s+FROM",
      [.lit ("DELETE".data), .plus isPySpace, .lit ("FROM".data)]),
    ("TRUNCATE\\s+TABLE",
      [.lit ("TRUNCATE".data), .plus isPySpace, .lit ("TABLE".data)]),
    ("ALTER\\s+TABLE",
      [.lit ("ALTER".data), .plus isPySpace, .lit ("TABLE".data)]),
    ("CREATE\\s+TABLE",
      [.lit ("CREATE".data), .plus isPySpace, .lit ("TABLE".data)]),
    ("INSERT\\s+INTO",
      [.lit ("INSERT".data), .plus isPySpace, .lit ("INTO".data)]),
    ("UPDATE\\s+.*SET",
      [.lit ("UPDATE".data), .plus isPySpace, .star isNotNl,
       .lit ("SET".data)]),
    ("GRANT\\s+", [.lit ("GRANT".data), .plus isPySpace]),
    ("REVOKE\\s+", [.lit ("REVOKE".data), .plus isPySpace]),
    ("EXEC\\s+", [.lit ("EXEC".data), .plus isPySpace]),
    ("EXECUTE\\s+", [.lit ("EXECUTE".data), .plus isPySpace]),
    ("xp_\\w+", [.lit ("XP_".data), .plus isPyWord]),
    ("sp_\\w+", [.lit ("SP_".data), .plus isPyWord]),
    (";\\s*DROP", [.lit (";".data), .star isPySpace, .lit ("DROP".data)]),
    (";\\s*DELETE",
      [.lit (";".data), .star isPySpace, .lit ("DELETE".data)]),
    ("UNION\\s+.*SELECT.*--",
      [.lit ("UNION".data), .plus isPySpace, .star isNotNl,
       .lit ("SELECT".data), .star isNotNl, .lit ("--".data)]),
    ("1\\s*=\\s*1",
      [.lit ("1".data), .star isPySpace, .lit ("=".data),
       .star isPySpace, .lit ("1".data)]),
    ("\\" ++ sqStr ++ ".*OR.*\\" ++ sqStr ++ ".*=.*\\" ++ sqStr,
      [.lit [sqChar], .star isNotNl, .lit ("OR".data), .star isNotNl,
       .lit [sqChar], .star isNotNl, .lit ("=".data), .star isNotNl,
       .lit [sqChar]]) ]

def READ_ONLY_KEYWORDS : List String :=
  ["SELECT", "SHOW", "DESCRIBE", "EXPLAIN", "WITH"]

/-- `SqlValidator.ALLOWED_TABLES`.  The source holds these in a Python
`set`; the model keeps the source listing order (set iteration order is
unspecified in Python, and nothing proved below depends on the order). -/
def ALLOWED_TABLES : List String :=
  ["MV_CREATOR_PAYMENTS_UNION",
   "V_CREATOR_PAYMENTS_UNION",
   "AI_USER_ACTIVITY_LOG",
   "AI_BUSINESS_CONTEXT",
   "AI_SCHEMA_METADATA",
   "AI_VIEW_CONSTRAINTS",
   "AI_CORTEX_PROMPTS",
   "AI_CORTEX_USAGE_LOG"]

def dangerMsg (patternSrc : String) : String :=
  "Dangerous SQL operation detected: " ++ patternSrc

def readOnlyMsg : String :=
  "Only read-only operations (SELECT, SHOW, DESCRIBE) are allowed"

/-- The first dangerous pattern (in list order) matching the prepared
statement, as found by the `for pattern in cls.DANGEROUS_PATTERNS` loop. -/
def firstDangerous (cs : List Char) : Option (String × List RTok) :=
  DANGEROUS_PATTERNS.find? (fun pr => reSearch pr.2 cs)

/-- `SqlValidator.is_read_only_query`: `sql.strip().upper()` starts with
one of the read-only keywords (a bare character-prefix test). -/
def is_read_only_query (sql : String) : Bool :=
  READ_ONLY_KEYWORDS.any
    (fun kw => kw.data.isPrefixOf (pyUpperL (pyStripL sql.data)))

/-! Removal of `EXTRACT(...)`/`TO_DATE(...)` wrappers, mirroring
`re.sub(r'EXTRACT\s*\([^)]+\)', '', ...)` and the `TO_DATE` analogue.
A match is the function name, optional whitespace, `(`, one or more
non-`)` characters, and `)`; `re.sub` deletes each match and resumes
scanning after it. -/

/-- Attempt the wrapper pattern at the head of `cs`; on success return the
suffix after the whole match. -/
def wrapperMatch (f : List Char) (cs : List Char) : Option (List Char) :=
  if f.isPrefixOf cs then
    let cs1 := (cs.drop f.length).dropWhile isPySpace
    match cs1 with
    | c :: cs2 =>
        if c = '(' then
          let run := cs2.takeWhile (fun d => d ≠ ')')
          if run.length > 0 then
            match cs2.drop run.length with
            | d :: cs3 => if d = ')' then some cs3 else none
            | [] => none
          else none
        else none
    | [] => none
  else none

/-- Fuelled scan deleting every wrapper match (fuel `cs.length` always
suffices: each successful match consumes at least one character). -/
def subWrapperAux (f : List Char) : Nat → List Char → List Char
  | 0, cs => cs
  | _ + 1, [] => []
  | n + 1, c :: rest =>
      match wrapperMatch f (c :: rest) with
      | some suffix => subWrapperAux f n suffix
      | none => c :: subWrapperAux f n rest

def subWrapper (f : List Char) (cs : List Char) : List Char :=
  subWrapperAux f cs.length cs

/-! Extraction of table references, mirroring
`re.findall(r'FROM\s+([\w.]+)', ...)` and the `JOIN` analogue. -/

def isTableChar (c : Char) : Bool := isPyWord c || c = '.'

/-- Attempt `KW\s+([\w.]+)` at the head of `cs`; on success return the
captured group and the suffix after the whole match. -/
def refMatch (kw : List Char) (cs : List Char) :
    Option (List Char × List Char) :=
  if kw.isPrefixOf cs then
    let after := cs.drop kw.length
    let wsrun := after.takeWhile isPySpace
    if wsrun.length > 0 then
      let body := after.drop wsrun.length
      let grp := body.takeWhile isTableChar
      if grp.length > 0 then some (grp, body.drop grp.length) else none
    else none
  else none

/-- Fuelled left-to-right non-overlapping `findall` scan. -/
def findRefsAux (kw : List Char) : Nat → List Char → List (List Char)
  | 0, _ => []
  | _ + 1, [] => []
  | n + 1, c :: rest =>
      match refMatch kw (c :: rest) with
      | some (grp, suffix) => grp :: findRefsAux kw n suffix
      | none => findRefsAux kw n rest

def findRefs (kw : List Char) (cs : List Char) : List (List Char) :=
  findRefsAux kw cs.length cs

/-- `table_ref.split('.')[-1]`: the trailing segment after the last dot. -/
def lastSegment (cs : List Char) : List Char :=
  (cs.reverse.takeWhile (fun c => c ≠ '.')).reverse

/-- The `FROM`/`JOIN` object references of `validate_table_access`, taken
from the upper-cased statement after wrapper removal. -/
def tableRefs (sql : String) : List (List Char) :=
  let sql_clean :=
    subWrapper ("TO_DATE".data)
      (subWrapper ("EXTRACT".data) (pyUpperL sql.data))
  findRefs ("FROM".data) sql_clean ++ findRefs ("JOIN".data) sql_clean

def tableErrMsg (table : String) : String :=
  "Access to table " ++ sqStr ++ table ++ sqStr ++
    " is not allowed. Allowed tables: " ++
    String.intercalate (", ") ALLOWED_TABLES

/-- `SqlValidator.validate_table_access`. -/
def validate_table_access (sql : String) : SqlValidationResult :=
  match (tableRefs sql).find?
      (fun r => !(decide ((⟨lastSegment r⟩ : String) ∈ ALLOWED_TABLES))) with
  | some r => ⟨false, some (tableErrMsg ⟨lastSegment r⟩), []⟩
  | none => ⟨true, none, []⟩

/-- `SqlValidator.validate_column_existence`: the source extracts column
candidates but compares them against nothing and unconditionally returns a
valid result (the body even says the dynamic validator should be used
instead), so the embedding is the constant valid result. -/
def validate_column_existence (_sql : String) : SqlValidationResult :=
  ⟨true, none, []⟩

/-- `SqlValidator.validate_sql_query`: dangerous-pattern scan on
`sql.upper().strip()`, then the read-only prefix check, then table access,
then (for statements mentioning `MV_CREATOR_PAYMENTS_UNION`) the
always-valid column check. -/
def validate_sql_query (sql : String) : SqlValidationResult :=
  match firstDangerous (pyStripL (pyUpperL sql.data)) with
  | some pr => ⟨false, some (dangerMsg pr.1), []⟩
  | none =>
      if !is_read_only_query sql then ⟨false, some readOnlyMsg, []⟩
      else
        let tv := validate_table_access sql
        if !tv.is_valid then tv
        else
          if reSearch [.lit ("MV_CREATOR_PAYMENTS_UNION".data)]
              (pyStripL (pyUpperL sql.data)) then
            let cv := validate_column_existence sql
            if !cv.is_valid then cv else ⟨true, none, []⟩
          else ⟨true, none, []⟩

/-- Decidable statement that no dangerous pattern matches. -/
def noDangerous (cs : List Char) : Bool :=
  DANGEROUS_PATTERNS.all (fun pr => !(reSearch pr.2 cs))

theorem firstDangerous_eq_none_of_noDangerous {cs : List Char}
    (h : noDangerous cs = true) : firstDangerous cs = none := by
  rw [firstDangerous, List.find?_eq_none]
  intro pr hpr
  have := List.all_eq_true.mp h pr hpr
  simp only [Bool.not_eq_true'] at this
  simp [this]

end SqlValidator

namespace ConnectionPool

/-!  ## Connection pool (`utils/connection_pool.py`)

Connections are modelled by numeric ids.  `_all_connections` (the live
set) is a duplicate-free list, the idle `Queue` a FIFO list.  Acquisition
and release are modelled at the granularity of the operations the code
performs while holding the queue/lock (the mutex guards the
count-and-create section), with liveness-probe outcomes supplied as
oracle booleans. -/

structure PoolCfg where
  min_size : Nat
  max_size : Nat
deriving DecidableEq, Repr

structure PoolState where
  idle : List Nat
  live : List Nat
  closed : Bool
  next_id : Nat
deriving DecidableEq, Repr

/-- Python `set.add`. -/
def setAdd (c : Nat) (l : List Nat) : List Nat := if c ∈ l then l else c :: l

/-- `__init__`/`_initialize_pool`: `k` warm-up connections were created
successfully (individual creation failures are logged and skipped, so `k`
may fall short of `min_size`). -/
def initPool (k : Nat) : PoolState :=
  { idle := List.range k, live := List.range k, closed := false,
    next_id := k }

/-- The `finally` block of `get_connection`: if the pool is closed the
connection is simply dropped; otherwise a liveness probe runs — on success
the connection is returned to the queue unless it was newly created and
the queue already holds at least `min_size` connections (then it is closed
and discarded from the live set); on failure it is closed and discarded. -/
def releaseConn (cfg : PoolCfg) (s : PoolState) (c : Nat)
    (created_new : Bool) (healthy : Bool) : PoolState :=
  if s.closed then s
  else if healthy then
    if !created_new || decide (s.idle.length < cfg.min_size) then
      { s with idle := s.idle ++ [c] }
    else { s with live := s.live.erase c }
  else { s with live := s.live.erase c }

/-- Exit of the `with pool.get_connection()` scope: the `finally` release
runs whether the caller's block returned normally or raised
(`body_raised` is ignored by construction, mirroring `try/finally`). -/
def get_connection_exit (cfg : PoolCfg) (s : PoolState) (c : Nat)
    (created_new : Bool) (healthy : Bool) (_body_raised : Bool) :
    PoolState :=
  releaseConn cfg s c created_new healthy

/-- One atomic pool operation.  Acquire paths follow `get_connection`
lines 118-147: take the queue head and probe it (healthy or dead-replace),
or on an empty queue create only under `max_size` while holding the lock,
else fail `pool exhausted` (a no-op on the state).  Release paths follow
the `finally` block via `releaseConn`; the released connection is one that
is checked out (in the live set, not in the queue).  `close_all` drains
and closes everything and marks the pool closed. -/
inductive Step (cfg : PoolCfg) : PoolState → PoolState → Prop where
  | acquire_idle_ok {s : PoolState} {c : Nat} {rest : List Nat} :
      s.closed = false → s.idle = c :: rest →
      Step cfg s { s with idle := rest }
  | acquire_idle_dead {s : PoolState} {c : Nat} {rest : List Nat} :
      s.closed = false → s.idle = c :: rest →
      Step cfg s { s with idle := rest,
                          live := setAdd s.next_id (s.live.erase c),
                          next_id := s.next_id + 1 }
  | acquire_create {s : PoolState} :
      s.closed = false → s.idle = [] →
      s.live.length < cfg.max_size →
      Step cfg s { s with live := setAdd s.next_id s.live,
                          next_id := s.next_id + 1 }
  | acquire_exhausted {s : PoolState} :
      s.closed = false → s.idle = [] →
      ¬ s.live.length < cfg.max_size →
      Step cfg s s
  | release {s : PoolState} {c : Nat} (created healthy : Bool) :
      c ∈ s.live → c ∉ s.idle →
      Step cfg s (releaseConn cfg s c created healthy)
  | close_all {s : PoolState} :
      Step cfg s { s with idle := [], live := [], closed := true }

/-- Reachability by a finite sequence of pool operations. -/
inductive Reaches (cfg : PoolCfg) : PoolState → PoolState → Prop where
  | refl (s : PoolState) : Reaches cfg s s
  | tail {s t u : PoolState} :
      Reaches cfg s t → Step cfg t u → Reaches cfg s u

/-- Pool well-formedness: the live set is duplicate-free, the idle queue
is duplicate-free and contained in the live set, ids are below the
fresh-id counter, and the live count is bounded by `max_size`. -/
structure Inv (cfg : PoolCfg) (s : PoolState) : Prop where
  nodup_live : s.live.Nodup
  nodup_idle : s.idle.Nodup
  idle_sub : ∀ c ∈ s.idle, c ∈ s.live
  fresh : ∀ c ∈ s.live, c < s.next_id
  live_le : s.live.length ≤ cfg.max_size

end ConnectionPool

namespace ToolRegistry

/-! ## Dynamic tool registry (`tools/dynamic_registry.py`)

`handle_tool_call` of `DynamicToolRegistry`.  The registry state after
`load_from_database` is modelled by the loaded tool names (keys of
`self.tools`), the handler map (keys of `self.handlers`, values the
handler callables, which may raise — modelled as `Except`), and the
group→tool-name membership map (`self.tools_by_group`).  The argument
payload type is a parameter `α`. -/

structure TextContent where
  type : String
  text : String
deriving DecidableEq, Repr

structure Registry (α : Type) where
  tools : List String
  handlers : List (String × (α → Except String (List TextContent)))
  tools_by_group : List (String × List String)

/-- `DynamicToolRegistry.handle_tool_call`: unknown-tool check, group
membership check (`self.tools_by_group.get(group_path, [])`), handler
lookup, then invocation with every handler exception caught and rendered
as a text response. -/
def handle_tool_call {α : Type} (reg : Registry α) (tool_name : String)
    (arguments : α) (group_path : String) : List TextContent :=
  if tool_name ∈ reg.tools then
    if tool_name ∈ (reg.tools_by_group.lookup group_path).getD [] then
      match reg.handlers.lookup tool_name with
      | some handler =>
          match handler arguments with
          | .ok result => result
          | .error e => [⟨"text", "Error executing tool: " ++ e⟩]
      | none =>
          [⟨"text", "Handler not found for tool: " ++ tool_name⟩]
    else
      [⟨"text", "Tool " ++ tool_name ++ " not available for this group"⟩]
  else
    [⟨"text", "Unknown tool: " ++ tool_name⟩]

/-- A tiny concrete registry used to exercise `handle_tool_call`. -/
def demoRegistry : Registry Nat :=
  { tools := ["query_tool", "admin_tool"]
    handlers := [("query_tool", fun _ => .error ("boom"))]
    tools_by_group := [("default", ["query_tool"])] }

end ToolRegistry

namespace PromptBuilder

/-! ## Prompt builder (`utils/prompt_builder.py`)

The metadata store is modelled as an oracle: each of the three lookups
either raises (`.error`) or returns its rows.  `PROMPT_ID` and text
columns may be SQL NULL, hence `Option String` per column. -/

/-- Python `s.replace(key, val)` — all non-overlapping occurrences, left
to right — on a fuelled scan (`s.length` fuel always suffices: every
successful match consumes at least one character, every failure one).
For the empty key Python interleaves `val` everywhere; the model leaves
`s` unchanged — every key the code uses is non-empty. -/
def replaceAux (key val : List Char) : Nat → List Char → List Char
  | 0, s => s
  | _ + 1, [] => []
  | n + 1, c :: rest =>
      if key ≠ [] ∧ key.isPrefixOf (c :: rest) then
        val ++ replaceAux key val n ((c :: rest).drop key.length)
      else c :: replaceAux key val n rest

def replaceL (key val s : List Char) : List Char :=
  replaceAux key val s.length s

def pyReplace (s key val : String) : String :=
  ⟨replaceL key.data val.data s.data⟩

structure MetaStore where
  templateRow : Except Unit (Option (Option String × Option String))
  businessRow :
    Except Unit (Option (Option String × Option String × Option String))
  schemaRows :
    Except Unit (List (Option String × Option String × Option String))

structure BuiltPrompt where
  prompt_text : String
  prompt_id : Option String
  prompt_char_count : Nat
  relevant_columns_k : Nat
deriving DecidableEq, Repr

def VIEW_TO_DOMAIN_MAP : List (String × String) :=
  [("V_CREATOR_PAYMENTS_UNION", "creator_payments")]

def DEFAULT_TEMPLATE : String :=
  "You are a Snowflake SQL expert for [[VIEW_NAME]].\n" ++
  "STRICT REQUIREMENTS:\n" ++
  "- Use only [[ALLOWED_COLUMNS]]\n" ++
  "- Allowed operations: [[ALLOWED_OPS]]\n" ++
  "- Always include LIMIT [[MAX_ROWS]]\n" ++
  "- No joins, CTEs, or subqueries. Use Snowflake SQL.\n\n" ++
  "Business context:\n[[BUSINESS_RULES]]\n\n" ++
  "Relevant columns (with meanings and examples):\n" ++
  "[[RELEVANT_COLUMN_SNIPPETS]]\n\n" ++
  "User query: \"[[USER_QUERY]]\"\n" ++
  "Return only one SQL SELECT statement."

/-- `_load_active_prompt_template`: `(prompt_id, template)` from the most
recent active row; `(None, None)` on a lookup exception or no row. -/
def load_active_prompt_template (st : MetaStore) :
    Option String × Option String :=
  match st.templateRow with
  | .error _ => (none, none)
  | .ok none => (none, none)
  | .ok (some row) => (row.1, row.2)

/-- `_load_business_rules`: render the business-context row as bullet
lines, skipping empty components; `None` on exception, no row or no
domain. -/
def load_business_rules (st : MetaStore) (domain : Option String) :
    Option String :=
  match domain with
  | none => none
  | some _ =>
      match st.businessRow with
      | .error _ => none
      | .ok none => none
      | .ok (some row) =>
          let title := pyStrip (row.1.getD "")
          let description := pyStrip (row.2.1.getD "")
          let examples := pyStrip (row.2.2.getD "")
          let parts :=
            (if title ≠ "" then ["- " ++ title] else []) ++
            (if description ≠ "" then ["- " ++ description] else []) ++
            (if examples ≠ "" then ["Examples: " ++ examples] else [])
          some (String.intercalate ("\n") parts)

/-- `_load_schema_metadata`: rows, or `[]` on a lookup exception. -/
def load_schema_metadata (st : MetaStore) :
    List (Option String × Option String × Option String) :=
  match st.schemaRows with
  | .error _ => []
  | .ok rows => rows

/-- `_render_relevant_column_snippets`: bullet list over at most 12 rows,
each example text truncated to 157 characters plus an ellipsis when
longer than 160. -/
def render_relevant_column_snippets
    (rows : List (Option String × Option String × Option String)) :
    String × Nat :=
  if rows = [] then ("- (No additional metadata available)", 0)
  else
    let lines := (rows.take 12).map (fun row =>
      let column_name := pyStrip (row.1.getD "")
      let meaning := pyStrip (row.2.1.getD "")
      let examples0 := pyStrip (row.2.2.getD "")
      let examples :=
        if examples0.length > 160 then
          (⟨examples0.data.take 157⟩ : String) ++ "..."
        else examples0
      "- " ++ column_name ++ ": " ++ meaning ++
        " (examples: " ++ examples ++ ")")
    (String.intercalate ("\n") lines, min rows.length 12)

def defaultBusinessRules : String :=
  "- Creator payment tracking and analysis\n" ++
  "- Common filters: status, date, amount, campaign, company"

/-- The replacement mapping of `build_prompt_for_view`, in the insertion
order of the Python dict literal.  `business_rules or <default>` uses
Python truthiness, so `None` and the empty string both fall back. -/
def replacementMap (view_name user_query : String) (max_rows : Int)
    (allowed_ops allowed_columns : List String)
    (business_rules : Option String) (snippets : String) :
    List (String × String) :=
  [("[[VIEW_NAME]]", view_name),
   ("[[ALLOWED_COLUMNS]]", String.intercalate (", ") allowed_columns),
   ("[[ALLOWED_OPS]]", String.intercalate (", ") allowed_ops),
   ("[[MAX_ROWS]]", toString max_rows),
   ("[[BUSINESS_RULES]]",
     match business_rules with
     | some s => if s = "" then defaultBusinessRules else s
     | none => defaultBusinessRules),
   ("[[RELEVANT_COLUMN_SNIPPETS]]", snippets),
   ("[[USER_QUERY]]", user_query)]

/-- `_replace_placeholders`: sequential `str.replace` over the mapping. -/
def replace_placeholders (template : String)
    (mapping : List (String × String)) : String :=
  mapping.foldl (fun acc kv => pyReplace acc kv.1 kv.2) template

/-- `PromptBuilder.build_prompt_for_view`. -/
def build_prompt_for_view (st : MetaStore) (view_name user_query : String)
    (max_rows : Int) (allowed_ops allowed_columns : List String) :
    BuiltPrompt :=
  let pidtpl := load_active_prompt_template st
  let domain := VIEW_TO_DOMAIN_MAP.lookup view_name
  let business_rules :=
    match domain with
    | some d => load_business_rules st (some d)
    | none => none
  let sk := render_relevant_column_snippets (load_schema_metadata st)
  let template := pidtpl.2.getD DEFAULT_TEMPLATE
  let prompt_text := pyStrip (replace_placeholders template
    (replacementMap view_name user_query max_rows allowed_ops
      allowed_columns business_rules sk.1))
  ⟨prompt_text, pidtpl.1, prompt_text.length, sk.2⟩

end PromptBuilder

namespace CortexGenerator

/-! ## Generation client (`cortex/cortex_generator_v2.py`)

`call_cortex_complete`: the remote call outcome is an oracle —
`.error ()` for a raised/timed-out call, `.ok none` for a missing/NULL
row, `.ok (some raw)` for a textual payload.  Extraction mirrors lines
237-262: fenced-block regex (with Python priority semantics: leftmost
match, greedy `\s*`/`\n?`, lazy group), backtick-marker removal,
quote stripping, whitespace collapse. -/

def ticks : List Char := "```".data

/-- Can the closing `\n?```` of the fence pattern match here? -/
def fenceCloses (cs : List Char) : Bool :=
  (match cs with
   | c :: rest => c = '\n' && ticks.isPrefixOf rest
   | [] => false) ||
  ticks.isPrefixOf cs

/-- The lazy group `(.*?)` (with `re.DOTALL`): smallest prefix whose
remainder closes the fence. -/
def lazyGroup (cs : List Char) : Option (List Char) :=
  (List.range (cs.length + 1)).findSome?
    (fun k => if fenceCloses (cs.drop k) then some (cs.take k) else none)

/-- The optional case-insensitive `sql` tag. -/
def sqlTag (cs : List Char) : Option (List Char) :=
  match cs with
  | a :: b :: c :: rest =>
      if (a = 's' || a = 'S') && (b = 'q' || b = 'Q') &&
          (c = 'l' || c = 'L') then some rest
      else none
  | _ => none

def consumeNl (cs : List Char) : Option (List Char) :=
  match cs with
  | c :: rest => if c = '\n' then some rest else none
  | [] => none

/-- `\s*` (greedy, longest first), `\n?` (greedy), lazy group, closing. -/
def fenceAfterTicks (cs : List Char) : Option (List Char) :=
  (List.range ((cs.takeWhile isPySpace).length + 1)).reverse.findSome?
    (fun i =>
      let cs1 := cs.drop i
      match consumeNl cs1 with
      | some cs2 => (lazyGroup cs2).orElse (fun _ => lazyGroup cs1)
      | none => lazyGroup cs1)

/-- Attempt the whole fence pattern at this position (`(?:sql)?` greedy:
with the tag first, then without). -/
def tryFenceAt (cs : List Char) : Option (List Char) :=
  if ticks.isPrefixOf cs then
    let r := cs.drop 3
    match sqlTag r with
    | some r2 => (fenceAfterTicks r2).orElse (fun _ => fenceAfterTicks r)
    | none => fenceAfterTicks r
  else none

/-- `re.search(r'```(?:sql)?\s*\n?(.*?)\n?```, ..., DOTALL|IGNORECASE)`:
group 1 of the leftmost match. -/
def fencedSearch : List Char → Option (List Char)
  | [] => none
  | c :: rest =>
      match tryFenceAt (c :: rest) with
      | some g => some g
      | none => fencedSearch rest

/-- The `elif '```' in generated_sql` branch:
`.replace('```sql','').replace('```SQL','').replace('```','')`. -/
def removeTickMarkers (cs : List Char) : List Char :=
  PromptBuilder.replaceL ticks []
    (PromptBuilder.replaceL ("```SQL".data) []
      (PromptBuilder.replaceL ("```sql".data) [] cs))

/-- One `startswith`/`endswith` quote-stripping step. -/
def stripQuotesOnce (q : Char) (s : List Char) : List Char :=
  if s.head? = some q && s.getLast? = some q then (s.drop 1).dropLast
  else s

/-- Python `str.split()` (whitespace runs, empties discarded), fuelled. -/
def pyWordsAux : Nat → List Char → List (List Char)
  | 0, _ => []
  | _ + 1, [] => []
  | n + 1, c :: rest =>
      if isPySpace c then pyWordsAux n rest
      else
        let w := (c :: rest).takeWhile (fun d => !(isPySpace d))
        w :: pyWordsAux n ((c :: rest).drop w.length)

def pyWords (cs : List Char) : List (List Char) := pyWordsAux cs.length cs

/-- The response clean-up of `call_cortex_complete` applied to
`str(result[0])`. -/
def cortexExtract (raw : String) : String :=
  let g0 := pyStripL raw.data
  let g1 :=
    match fencedSearch g0 with
    | some grp => pyStripL grp
    | none => if reSearch [.lit ticks] g0 then removeTickMarkers g0 else g0
  let g2 := pyStripL g1
  let g3 := stripQuotesOnce '"' g2
  let g4 := stripQuotesOnce sqChar g3
  let g5 := List.intercalate ([' ']) (pyWords g4)
  ⟨pyStripL g5⟩

/-- `CortexGenerator.call_cortex_complete` as a function of the remote
call's outcome: exceptions propagate, a missing/empty payload raises
`ValueError`, and a non-empty payload is cleaned by `cortexExtract`. -/
def call_cortex_complete (outcome : Except Unit (Option String)) :
    Except Unit String :=
  match outcome with
  | .error _ => .error ()
  | .ok none => .error ()
  | .ok (some raw) =>
      if raw = "" then .error () else .ok (cortexExtract raw)

end CortexGenerator

/-- `List.find?` returns the element at the first index whose predicate
holds. -/
theorem find?_eq_get_of_first {α : Type} (l : List α) (p : α → Bool) :
    ∀ (i : Nat) (hi : i < l.length), p (l.get ⟨i, hi⟩) = true →
      (∀ j (hj : j < l.length), j < i → p (l.get ⟨j, hj⟩) = false) →
      l.find? p = some (l.get ⟨i, hi⟩) := by
  induction l with
  | nil => intro i hi; simp at hi
  | cons a t ih =>
      intro i hi hpi hfirst
      cases i with
      | zero => exact List.find?_cons_of_pos _ hpi
      | succ k =>
          have ha : p a = false := hfirst 0 (by simp) (Nat.succ_pos k)
          have hk : k < t.length := Nat.lt_of_succ_lt_succ hi
          have := ih k hk hpi
            (fun j hj hlt =>
              hfirst (j + 1) (Nat.succ_lt_succ hj) (Nat.succ_lt_succ hlt))
          rw [List.find?_cons_of_neg _ (by simp [ha])]
          exact this

namespace SqlValidator

/-- C1.  Any statement whose upper-cased, trimmed form matches a dangerous
pattern is rejected by `validate_sql_query` with the error naming the first
matching pattern in `DANGEROUS_PATTERNS` list order; the later read-only
and table-access checks never see it. -/
theorem validate_sql_query_flags_first_dangerous_pattern
    (sql : String) (i : Nat) (hi : i < DANGEROUS_PATTERNS.length)
    (hmatch : reSearch (DANGEROUS_PATTERNS.get ⟨i, hi⟩).2
        (pyStripL (pyUpperL sql.data)) = true)
    (hfirst : ∀ j (hj : j < DANGEROUS_PATTERNS.length), j < i →
        reSearch (DANGEROUS_PATTERNS.get ⟨j, hj⟩).2
          (pyStripL (pyUpperL sql.data)) = false) :
    validate_sql_query sql =
      ⟨false, some (dangerMsg (DANGEROUS_PATTERNS.get ⟨i, hi⟩).1), []⟩ := by
  have hfind :
      firstDangerous (pyStripL (pyUpperL sql.data)) =
        some (DANGEROUS_PATTERNS.get ⟨i, hi⟩) :=
    find?_eq_get_of_first DANGEROUS_PATTERNS
      (fun pr => reSearch pr.2 (pyStripL (pyUpperL sql.data))) i hi hmatch
      hfirst
  simp only [validate_sql_query, hfind]

/-- Witness for C1 at the statement `DROP TABLE USERS` and pattern index 0
(`DROP\s+TABLE`). -/
theorem validate_sql_query_flags_first_dangerous_pattern_witness :
    validate_sql_query ("DROP TABLE USERS") =
      ⟨false, some (dangerMsg ("DROP\\s+TABLE")), []⟩ :=
  validate_sql_query_flags_first_dangerous_pattern ("DROP TABLE USERS") 0
    (by decide) (by decide) (fun j hj hlt => absurd hlt (Nat.not_lt_zero j))

/-- C2.  A statement matching no dangerous pattern whose trimmed,
upper-cased form does not begin with a read-only verb is rejected with the
generic read-only message. -/
theorem validate_sql_query_rejects_non_read_only
    (sql : String)
    (hsafe : noDangerous (pyStripL (pyUpperL sql.data)) = true)
    (hro : is_read_only_query sql = false) :
    validate_sql_query sql = ⟨false, some readOnlyMsg, []⟩ := by
  simp only [validate_sql_query,
    firstDangerous_eq_none_of_noDangerous hsafe, hro]
  rfl

/-- Witness for C2 at the statement `CALL DO_STUFF()`. -/
theorem validate_sql_query_rejects_non_read_only_witness :
    validate_sql_query ("CALL DO_STUFF()") =
      ⟨false, some readOnlyMsg, []⟩ :=
  validate_sql_query_rejects_non_read_only ("CALL DO_STUFF()")
    (by decide) (by decide)

/-- C9.  The read-only check is a character-prefix test with no word
boundary: whenever the trimmed, upper-cased statement begins with the
character sequence of one of the read-only keywords — even as a prefix of
a longer word — `is_read_only_query` returns `true`. -/
theorem is_read_only_query_is_prefix_test
    (sql kw : String) (hkw : kw ∈ READ_ONLY_KEYWORDS)
    (hpre : kw.data.isPrefixOf (pyUpperL (pyStripL sql.data)) = true) :
    is_read_only_query sql = true := by
  unfold is_read_only_query
  rw [List.any_eq_true]
  exact ⟨kw, hkw, hpre⟩

/-- Witness for C9: `WITHDRAW FUNDS` begins with the characters `WITH`
and is classified read-only. -/
theorem is_read_only_query_is_prefix_test_witness :
    is_read_only_query ("WITHDRAW FUNDS") = true :=
  is_read_only_query_is_prefix_test ("WITHDRAW FUNDS") ("WITH")
    (by decide) (by decide)

/-- C10.  The dangerous-pattern scan matches raw substrings: the benign
statement `SELECT * FROM AI_USER_ACTIVITY_LOG WHERE COL1 = 10` begins with
SELECT and references only the allow-listed table AI_USER_ACTIVITY_LOG,
yet is rejected because the tautology pattern `1\s*=\s*1` matches across
the end of COL1 and the start of 10. -/
theorem dangerous_scan_rejects_benign_col1_eq_10 :
    validate_sql_query
        ("SELECT * FROM AI_USER_ACTIVITY_LOG WHERE COL1 = 10") =
      ⟨false, some (dangerMsg ("1\\s*=\\s*1")), []⟩ ∧
    is_read_only_query
        ("SELECT * FROM AI_USER_ACTIVITY_LOG WHERE COL1 = 10") = true ∧
    (tableRefs ("SELECT * FROM AI_USER_ACTIVITY_LOG WHERE COL1 = 10")).map
        (fun r => (⟨lastSegment r⟩ : String)) = ["AI_USER_ACTIVITY_LOG"] :=
  ⟨by decide, by decide, by decide⟩

/-- C3.  For a statement passing the dangerous-pattern and read-only
checks, `validate_sql_query` is decided by the table-access check on the
object names extracted after `FROM`/`JOIN` (wrappers removed, trailing
dot-segment kept): if every extracted name is allow-listed the result is
valid, and if some name is not, the result is invalid with the error that
names it and enumerates the allowed tables. -/
theorem validate_sql_query_decided_by_table_access
    (sql : String)
    (hsafe : noDangerous (pyStripL (pyUpperL sql.data)) = true)
    (hro : is_read_only_query sql = true) :
    ((∀ r ∈ tableRefs sql, (⟨lastSegment r⟩ : String) ∈ ALLOWED_TABLES) →
      validate_sql_query sql = ⟨true, none, []⟩) ∧
    (∀ r, (tableRefs sql).find?
          (fun r =>
            !(decide ((⟨lastSegment r⟩ : String) ∈ ALLOWED_TABLES))) =
        some r →
      validate_sql_query sql =
        ⟨false, some (tableErrMsg ⟨lastSegment r⟩), []⟩) := by
  constructor
  · intro hall
    have hnone : (tableRefs sql).find?
        (fun r =>
          !(decide ((⟨lastSegment r⟩ : String) ∈ ALLOWED_TABLES))) =
          none := by
      rw [List.find?_eq_none]
      intro x hx
      simp [hall x hx]
    simp [validate_sql_query,
      firstDangerous_eq_none_of_noDangerous hsafe, hro,
      validate_table_access, hnone, validate_column_existence]
  · intro r hr
    simp [validate_sql_query,
      firstDangerous_eq_none_of_noDangerous hsafe, hro,
      validate_table_access, hr]

/-- Witness for C3: a statement over the allow-listed table
AI_BUSINESS_CONTEXT validates, via the first conjunct. -/
theorem validate_sql_query_decided_by_table_access_witness :
    validate_sql_query ("SELECT * FROM AI_BUSINESS_CONTEXT") =
      ⟨true, none, []⟩ :=
  (validate_sql_query_decided_by_table_access
      ("SELECT * FROM AI_BUSINESS_CONTEXT") (by decide) (by decide)).1
    (by decide)

end SqlValidator

namespace ConnectionPool

theorem mem_setAdd {c d : Nat} {l : List Nat} :
    d ∈ setAdd c l ↔ d = c ∨ d ∈ l := by
  unfold setAdd
  split
  · rename_i h
    exact ⟨Or.inr, fun h' => h'.elim (fun e => e ▸ h) id⟩
  · simp [List.mem_cons]

theorem nodup_setAdd {c : Nat} {l : List Nat} (h : l.Nodup) :
    (setAdd c l).Nodup := by
  unfold setAdd
  split
  · exact h
  · exact List.nodup_cons.mpr ⟨by assumption, h⟩

theorem length_setAdd_le (c : Nat) (l : List Nat) :
    (setAdd c l).length ≤ l.length + 1 := by
  unfold setAdd
  split
  · omega
  · simp

theorem length_setAdd_of_not_mem {c : Nat} {l : List Nat} (h : c ∉ l) :
    (setAdd c l).length = l.length + 1 := by
  unfold setAdd
  rw [if_neg h]
  rfl

/-- `releaseConn` preserves pool well-formedness when the released
connection is checked out (live and not idle). -/
theorem releaseConn_preserves_inv {cfg : PoolCfg} {s : PoolState}
    {c : Nat} {created healthy : Bool} (hinv : Inv cfg s)
    (hlive : c ∈ s.live) (hnidle : c ∉ s.idle) :
    Inv cfg (releaseConn cfg s c created healthy) := by
  unfold releaseConn
  split
  · exact hinv
  split
  · split
    · exact {
        nodup_live := hinv.nodup_live
        nodup_idle := by
          rw [List.nodup_append]
          exact ⟨hinv.nodup_idle, List.nodup_singleton c,
            fun a ha hb => by
              rw [List.mem_singleton] at hb
              exact hnidle (hb ▸ ha)⟩
        idle_sub := fun d hd => by
          rcases List.mem_append.mp hd with h' | h'
          · exact hinv.idle_sub d h'
          · rw [List.mem_singleton] at h'
            exact h' ▸ hlive
        fresh := hinv.fresh
        live_le := hinv.live_le }
    · exact {
        nodup_live := hinv.nodup_live.erase c
        nodup_idle := hinv.nodup_idle
        idle_sub := fun d hd =>
          (List.mem_erase_of_ne (fun e => hnidle (by rwa [e] at hd))).mpr
            (hinv.idle_sub d hd)
        fresh := fun d hd => hinv.fresh d (List.erase_subset _ _ hd)
        live_le :=
          le_trans (List.erase_sublist c s.live).length_le hinv.live_le }
  · exact {
      nodup_live := hinv.nodup_live.erase c
      nodup_idle := hinv.nodup_idle
      idle_sub := fun d hd =>
        (List.mem_erase_of_ne (fun e => hnidle (by rwa [e] at hd))).mpr
          (hinv.idle_sub d hd)
      fresh := fun d hd => hinv.fresh d (List.erase_subset _ _ hd)
      live_le :=
        le_trans (List.erase_sublist c s.live).length_le hinv.live_le }

/-- Every atomic pool operation preserves well-formedness. -/
theorem step_preserves_inv {cfg : PoolCfg} {s s' : PoolState}
    (h : Step cfg s s') (hinv : Inv cfg s) : Inv cfg s' := by
  cases h with
  | acquire_idle_ok hcl hidle =>
      rename_i c rest
      have hni : s.idle.Nodup := hinv.nodup_idle
      rw [hidle] at hni
      exact {
        nodup_live := hinv.nodup_live
        nodup_idle := (List.nodup_cons.mp hni).2
        idle_sub := fun d hd =>
          hinv.idle_sub d (by rw [hidle]; exact List.mem_cons_of_mem c hd)
        fresh := hinv.fresh
        live_le := hinv.live_le }
  | acquire_idle_dead hcl hidle =>
      rename_i c rest
      have hni : s.idle.Nodup := hinv.nodup_idle
      rw [hidle] at hni
      have hcin : c ∈ s.live :=
        hinv.idle_sub c (by rw [hidle]; exact List.mem_cons_self c rest)
      have hfresh_not : s.next_id ∉ s.live.erase c := fun hmem =>
        absurd (hinv.fresh _ (List.erase_subset _ _ hmem)) (lt_irrefl _)
      exact {
        nodup_live := nodup_setAdd (hinv.nodup_live.erase c)
        nodup_idle := (List.nodup_cons.mp hni).2
        idle_sub := fun d hd => by
          have hdc : d ≠ c := fun e => (List.nodup_cons.mp hni).1 (e ▸ hd)
          have : d ∈ s.live :=
            hinv.idle_sub d (by rw [hidle]; exact List.mem_cons_of_mem c hd)
          exact mem_setAdd.mpr
            (Or.inr ((List.mem_erase_of_ne hdc).mpr this))
        fresh := fun d hd => by
          rcases mem_setAdd.mp hd with e | h'
          · show d < s.next_id + 1
            omega
          · exact lt_trans (hinv.fresh d (List.erase_subset _ _ h'))
              (Nat.lt_succ_self _)
        live_le := by
          show (setAdd s.next_id (s.live.erase c)).length ≤ cfg.max_size
          rw [length_setAdd_of_not_mem hfresh_not,
            List.length_erase_of_mem hcin]
          have hpos : 0 < s.live.length := List.length_pos.mpr
            (fun e => by rw [e] at hcin; exact List.not_mem_nil c hcin)
          have := hinv.live_le
          omega }
  | acquire_create hcl hidle hlt =>
      have hfresh_not : s.next_id ∉ s.live := fun hmem =>
        absurd (hinv.fresh _ hmem) (lt_irrefl _)
      exact {
        nodup_live := nodup_setAdd hinv.nodup_live
        nodup_idle := hinv.nodup_idle
        idle_sub := fun d hd =>
          mem_setAdd.mpr (Or.inr (hinv.idle_sub d hd))
        fresh := fun d hd => by
          rcases mem_setAdd.mp hd with e | h'
          · show d < s.next_id + 1
            omega
          · exact lt_trans (hinv.fresh d h') (Nat.lt_succ_self _)
        live_le := by
          show (setAdd s.next_id s.live).length ≤ cfg.max_size
          rw [length_setAdd_of_not_mem hfresh_not]
          omega }
  | acquire_exhausted hcl hidle hge => exact hinv
  | release created healthy hlive hnidle =>
      exact releaseConn_preserves_inv hinv hlive hnidle
  | close_all =>
      exact {
        nodup_live := List.nodup_nil
        nodup_idle := List.nodup_nil
        idle_sub := fun d hd => absurd hd (List.not_mem_nil d)
        fresh := fun d hd => absurd hd (List.not_mem_nil d)
        live_le := by simp }

theorem reaches_preserves_inv {cfg : PoolCfg} {s s' : PoolState}
    (h : Reaches cfg s s') (hinv : Inv cfg s) : Inv cfg s' := by
  induction h with
  | refl => exact hinv
  | tail _ hstep ih => exact step_preserves_inv hstep ih

/-- The freshly initialised pool is well-formed when the number of
successfully created warm-up connections is within `max_size`. -/
theorem initPool_inv {cfg : PoolCfg} {k : Nat} (hk : k ≤ cfg.max_size) :
    Inv cfg (initPool k) :=
  { nodup_live := List.nodup_range k
    nodup_idle := List.nodup_range k
    idle_sub := fun _ h => h
    fresh := fun _ h => List.mem_range.mp h
    live_le := by
      show (List.range k).length ≤ cfg.max_size
      simpa using hk }

/-- C4.  Under any interleaving of acquires, releases and shutdowns, the
number of live connections tracked by the pool never exceeds `max_size`:
an acquire that finds the queue empty creates a new connection only when
the live count is strictly below `max_size` (`Step.acquire_create`), and
otherwise fails with the pool-exhausted error leaving the state unchanged
(`Step.acquire_exhausted`). -/
theorem pool_live_never_exceeds_max (cfg : PoolCfg) (k : Nat)
    (hk : k ≤ cfg.max_size) (s : PoolState)
    (hreach : Reaches cfg (initPool k) s) :
    s.live.length ≤ cfg.max_size :=
  (reaches_preserves_inv hreach (initPool_inv hk)).live_le

/-- Witness for C4: a pool with `min_size = max_size = 1` after an
acquire of the one idle connection and a failed (exhausted) second
acquire. -/
theorem pool_live_never_exceeds_max_witness :
    (⟨[], [0], false, 1⟩ : PoolState).live.length ≤
      (⟨1, 1⟩ : PoolCfg).max_size :=
  pool_live_never_exceeds_max ⟨1, 1⟩ 1 (by decide) ⟨[], [0], false, 1⟩
    (Reaches.tail
      (Reaches.tail (Reaches.refl _) (Step.acquire_idle_ok rfl rfl))
      (Step.acquire_exhausted rfl rfl (by decide)))

/-- C5 counterexample: a healthy connection (`created_new = true`, probe
succeeds) released while the idle queue already holds `min_size`
connections is closed and removed from the live set instead of being
returned to the queue. -/
theorem release_closes_healthy_created_connection :
    releaseConn ⟨1, 2⟩ ⟨[7], [7, 5], false, 8⟩ 5 true true =
      ⟨[7], [7], false, 8⟩ ∧
    5 ∉ (releaseConn ⟨1, 2⟩ ⟨[7], [7, 5], false, 8⟩ 5 true true).idle ∧
    5 ∉ (releaseConn ⟨1, 2⟩ ⟨[7], [7, 5], false, 8⟩ 5 true true).live := by
  refine ⟨by decide, by decide, by decide⟩

/-- C5 (amended).  On every exit path of the caller's block — normal or
exception — the pool either appends the connection to the idle queue
(probe succeeded, and the connection was not newly created or the queue
is below `min_size`) or closes it and removes it from the live set (probe
failed, or the connection was newly created and the queue already holds
at least `min_size`); while the pool is open no connection is leaked. -/
theorem release_returns_or_disposes (cfg : PoolCfg) (s : PoolState)
    (c : Nat) (created healthy body_raised : Bool)
    (hopen : s.closed = false) :
    (get_connection_exit cfg s c created healthy body_raised =
        { s with idle := s.idle ++ [c] } ∧ healthy = true ∧
        (created = false ∨ s.idle.length < cfg.min_size)) ∨
    (get_connection_exit cfg s c created healthy body_raised =
        { s with live := s.live.erase c } ∧
        (healthy = false ∨
          (created = true ∧ cfg.min_size ≤ s.idle.length))) := by
  unfold get_connection_exit releaseConn
  rw [hopen]
  cases healthy with
  | false => exact Or.inr ⟨by simp, Or.inl rfl⟩
  | true =>
      cases created with
      | false => exact Or.inl ⟨by simp, rfl, Or.inl rfl⟩
      | true =>
          by_cases hlt : s.idle.length < cfg.min_size
          · exact Or.inl ⟨by simp [hlt], rfl, Or.inr hlt⟩
          · exact Or.inr ⟨by simp [hlt], Or.inr ⟨rfl, le_of_not_lt hlt⟩⟩

/-- Witness for C5 (amended): a not-newly-created healthy connection is
returned to the queue on scope exit even though the body raised. -/
theorem release_returns_or_disposes_witness :
    (get_connection_exit ⟨2, 4⟩ ⟨[], [3], false, 4⟩ 3 false true true =
        { (⟨[], [3], false, 4⟩ : PoolState) with idle := [] ++ [3] } ∧
        true = true ∧
        (false = false ∨
          (⟨[], [3], false, 4⟩ : PoolState).idle.length <
            (⟨2, 4⟩ : PoolCfg).min_size)) ∨
    (get_connection_exit ⟨2, 4⟩ ⟨[], [3], false, 4⟩ 3 false true true =
        { (⟨[], [3], false, 4⟩ : PoolState) with
            live := [3].erase 3 } ∧
        (true = false ∨
          (false = true ∧
            (⟨2, 4⟩ : PoolCfg).min_size ≤
              (⟨[], [3], false, 4⟩ : PoolState).idle.length))) :=
  release_returns_or_disposes ⟨2, 4⟩ ⟨[], [3], false, 4⟩ 3 false true true
    rfl

end ConnectionPool

namespace ToolRegistry

/-- C6.  Dispatch behaviour of `handle_tool_call`: a name never loaded
yields the "unknown tool" text response; a loaded name outside the
group's membership yields the distinct "not available for this group"
response; otherwise the resolved handler is invoked with the arguments,
its exception (if any) is caught and rendered as a generic
execution-failure text response, and its normal result is returned. -/
theorem handle_tool_call_dispatch {α : Type} (reg : Registry α)
    (tool_name : String) (arguments : α) (group_path : String) :
    (tool_name ∉ reg.tools →
      handle_tool_call reg tool_name arguments group_path =
        [⟨"text", "Unknown tool: " ++ tool_name⟩]) ∧
    (tool_name ∈ reg.tools →
      tool_name ∉ (reg.tools_by_group.lookup group_path).getD [] →
      handle_tool_call reg tool_name arguments group_path =
        [⟨"text",
          "Tool " ++ tool_name ++ " not available for this group"⟩]) ∧
    (∀ handler, tool_name ∈ reg.tools →
      tool_name ∈ (reg.tools_by_group.lookup group_path).getD [] →
      reg.handlers.lookup tool_name = some handler →
      (∀ e, handler arguments = .error e →
        handle_tool_call reg tool_name arguments group_path =
          [⟨"text", "Error executing tool: " ++ e⟩]) ∧
      (∀ result, handler arguments = .ok result →
        handle_tool_call reg tool_name arguments group_path = result)) := by
  refine ⟨?_, ?_, ?_⟩
  · intro h
    simp [handle_tool_call, h]
  · intro h1 h2
    simp [handle_tool_call, h1, h2]
  · intro handler h1 h2 h3
    constructor
    · intro e he
      simp [handle_tool_call, h1, h2, h3, he]
    · intro result hres
      simp [handle_tool_call, h1, h2, h3, hres]

/-- Witness for C6: in the demo registry the loaded, group-visible
`query_tool` handler raises `boom`, and dispatch converts the exception
into the execution-failure text response. -/
theorem handle_tool_call_dispatch_witness :
    handle_tool_call demoRegistry ("query_tool") 0 ("default") =
      [⟨"text", "Error executing tool: boom"⟩] :=
  ((handle_tool_call_dispatch demoRegistry ("query_tool") 0
      ("default")).2.2 (fun _ => .error ("boom")) (by decide) (by decide)
      rfl).1 ("boom") rfl

end ToolRegistry

namespace PromptBuilder

/-- `str.replace` never decreases the number of occurrences of a
character that does not occur in the search key. -/
theorem count_le_replaceAux (key val : List Char) (c : Char)
    (hc : c ∉ key) :
    ∀ (n : Nat) (s : List Char),
      s.count c ≤ (replaceAux key val n s).count c := by
  intro n
  induction n with
  | zero => intro s; exact Nat.le_refl _
  | succ n ihn =>
      intro s
      cases s with
      | nil => exact Nat.le_refl _
      | cons c0 rest =>
          rw [replaceAux]
          by_cases hcond : key ≠ [] ∧ key.isPrefixOf (c0 :: rest) = true
          · rw [if_pos hcond, List.count_append]
            rcases List.isPrefixOf_iff_prefix.mp hcond.2 with ⟨t, ht⟩
            have hdrop : (c0 :: rest).drop key.length = t := by
              rw [← ht, List.drop_left]
            have hcnt : (c0 :: rest).count c = t.count c := by
              rw [← ht, List.count_append, List.count_eq_zero.mpr hc]
              omega
            have := ihn t
            rw [hdrop, hcnt]
            omega
          · rw [if_neg hcond]
            have := ihn rest
            rw [List.count_cons, List.count_cons]
            omega

/-- `str.replace` never decreases the number of occurrences of a
character that does not occur in the search key. -/
theorem count_le_replaceL (key val : List Char) (c : Char)
    (hc : c ∉ key) :
    ∀ s : List Char, s.count c ≤ (replaceL key val s).count c := by
  intro s
  exact count_le_replaceAux key val c hc s.length s

/-- Sequential replacement over a mapping whose keys avoid `c` never
decreases the count of `c`. -/
theorem count_le_replace_placeholders (c : Char)
    (m : List (String × String))
    (hm : ∀ kv ∈ m, c ∉ kv.1.data) :
    ∀ s : String,
      s.data.count c ≤ (replace_placeholders s m).data.count c := by
  induction m with
  | nil => intro s; exact le_refl _
  | cons kv rest ih =>
      intro s
      have h1 : s.data.count c ≤ (pyReplace s kv.1 kv.2).data.count c :=
        count_le_replaceL kv.1.data kv.2.data c
          (hm kv (List.mem_cons_self kv rest)) s.data
      have h2 := ih (fun kv' h' => hm kv' (List.mem_cons_of_mem kv h'))
        (pyReplace s kv.1 kv.2)
      exact le_trans h1 h2

theorem pyStrip_data (s : String) : (pyStrip s).data = pyStripL s.data :=
  rfl

theorem string_empty_data : ("" : String).data = [] := rfl

theorem count_dropWhile_eq {c : Char} {p : Char → Bool}
    (hc : p c = false) :
    ∀ l : List Char, (l.dropWhile p).count c = l.count c := by
  intro l
  induction l with
  | nil => rfl
  | cons a t ih =>
      by_cases ha : p a = true
      · rw [List.dropWhile_cons_of_pos ha, ih, List.count_cons_of_ne]
        intro e
        rw [e] at hc
        rw [hc] at ha
        exact Bool.false_ne_true ha
      · rw [List.dropWhile_cons_of_neg ha]

/-- `str.strip` preserves the count of any non-whitespace character. -/
theorem count_pyStripL_eq {c : Char} (hc : isPySpace c = false)
    (l : List Char) : (pyStripL l).count c = l.count c := by
  unfold pyStripL
  rw [List.count_reverse, count_dropWhile_eq hc, List.count_reverse,
    count_dropWhile_eq hc]

/-- C7 counterexample: a metadata store whose active-template lookup
succeeds with the empty string as template text makes
`build_prompt_for_view` return an empty prompt text (with the row's
prompt id), so the result is not always a non-empty prompt. -/
theorem build_prompt_empty_on_empty_db_template :
    (build_prompt_for_view
        ⟨.ok (some (some ("P1"), some (""))), .error (), .error ()⟩
        ("V") ("q") 10 [] []).prompt_text = "" ∧
    (build_prompt_for_view
        ⟨.ok (some (some ("P1"), some (""))), .error (), .error ()⟩
        ("V") ("q") 10 [] []).prompt_id = some ("P1") := by
  exact ⟨by decide, by decide⟩

/-- C7 (amended).  `build_prompt_for_view` is a total function of the
store oracle (it never throws), and whenever the active-template lookup
raises or finds no row it uses the built-in default template: the
returned template id is the sentinel `none`, the prompt text is the
rendering of `DEFAULT_TEMPLATE`, and that prompt text is non-empty. -/
theorem build_prompt_defaults_on_template_lookup_failure
    (st : MetaStore) (view_name user_query : String) (max_rows : Int)
    (allowed_ops allowed_columns : List String)
    (hfail : st.templateRow = .error () ∨ st.templateRow = .ok none) :
    (build_prompt_for_view st view_name user_query max_rows allowed_ops
        allowed_columns).prompt_id = none ∧
    (build_prompt_for_view st view_name user_query max_rows allowed_ops
        allowed_columns).prompt_text =
      pyStrip (replace_placeholders DEFAULT_TEMPLATE
        (replacementMap view_name user_query max_rows allowed_ops
          allowed_columns
          (match VIEW_TO_DOMAIN_MAP.lookup view_name with
           | some d => load_business_rules st (some d)
           | none => none)
          (render_relevant_column_snippets (load_schema_metadata st)).1)) ∧
    (build_prompt_for_view st view_name user_query max_rows allowed_ops
        allowed_columns).prompt_text ≠ "" := by
  have hload : load_active_prompt_template st = (none, none) := by
    rcases hfail with h | h <;> simp [load_active_prompt_template, h]
  have hid : (build_prompt_for_view st view_name user_query max_rows
      allowed_ops allowed_columns).prompt_id = none := by
    show (load_active_prompt_template st).1 = none
    rw [hload]
  have htext : (build_prompt_for_view st view_name user_query max_rows
      allowed_ops allowed_columns).prompt_text =
      pyStrip (replace_placeholders DEFAULT_TEMPLATE
        (replacementMap view_name user_query max_rows allowed_ops
          allowed_columns
          (match VIEW_TO_DOMAIN_MAP.lookup view_name with
           | some d => load_business_rules st (some d)
           | none => none)
          (render_relevant_column_snippets (load_schema_metadata st)).1)) := by
    show pyStrip (replace_placeholders
        ((load_active_prompt_template st).2.getD DEFAULT_TEMPLATE)
        (replacementMap view_name user_query max_rows allowed_ops
          allowed_columns
          (match VIEW_TO_DOMAIN_MAP.lookup view_name with
           | some d => load_business_rules st (some d)
           | none => none)
          (render_relevant_column_snippets (load_schema_metadata st)).1)) =
      _
    rw [hload]
    rfl
  refine ⟨hid, htext, ?_⟩
  rw [htext]
  set m := replacementMap view_name user_query max_rows allowed_ops
    allowed_columns
    (match VIEW_TO_DOMAIN_MAP.lookup view_name with
     | some d => load_business_rules st (some d)
     | none => none)
    (render_relevant_column_snippets (load_schema_metadata st)).1 with hm
  have hfst : m.map Prod.fst =
      ["[[VIEW_NAME]]", "[[ALLOWED_COLUMNS]]", "[[ALLOWED_OPS]]",
       "[[MAX_ROWS]]", "[[BUSINESS_RULES]]",
       "[[RELEVANT_COLUMN_SNIPPETS]]", "[[USER_QUERY]]"] := by
    rw [hm]
    rfl
  have hkeys : ∀ kv ∈ m, ('q' : Char) ∉ kv.1.data := by
    intro kv hkv
    have hkv1 : kv.1 ∈ m.map Prod.fst := List.mem_map_of_mem Prod.fst hkv
    rw [hfst] at hkv1
    simp only [List.mem_cons, List.not_mem_nil, or_false] at hkv1
    rcases hkv1 with h | h | h | h | h | h | h <;> rw [h] <;> decide
  have h1 : (1 : Nat) ≤ DEFAULT_TEMPLATE.data.count ('q') := by decide
  have h2 := count_le_replace_placeholders ('q') m hkeys DEFAULT_TEMPLATE
  have h3 := count_pyStripL_eq
    (show isPySpace ('q') = false by decide)
    (replace_placeholders DEFAULT_TEMPLATE m).data
  intro hempty
  have hdata := congrArg String.data hempty
  rw [pyStrip_data, string_empty_data] at hdata
  rw [hdata] at h3
  rw [List.count_nil] at h3
  omega

/-- Witness for C7 (amended), at a store whose template lookup raises. -/
theorem build_prompt_defaults_on_template_lookup_failure_witness :
    (build_prompt_for_view ⟨.error (), .error (), .error ()⟩ ("MVX")
        ("count rows") 100 [("SELECT")] [("USER_ID")]).prompt_id = none ∧
    (build_prompt_for_view ⟨.error (), .error (), .error ()⟩ ("MVX")
        ("count rows") 100 [("SELECT")] [("USER_ID")]).prompt_text =
      pyStrip (replace_placeholders DEFAULT_TEMPLATE
        (replacementMap ("MVX") ("count rows") 100 [("SELECT")]
          [("USER_ID")] none
          ("- (No additional metadata available)"))) ∧
    (build_prompt_for_view ⟨.error (), .error (), .error ()⟩ ("MVX")
        ("count rows") 100 [("SELECT")] [("USER_ID")]).prompt_text ≠
      "" :=
  build_prompt_defaults_on_template_lookup_failure
    ⟨.error (), .error (), .error ()⟩ ("MVX") ("count rows") 100
    [("SELECT")] [("USER_ID")] (Or.inl rfl)

end PromptBuilder

namespace CortexGenerator

/-- C8 counterexample: the raw payload consisting of six backticks (an
empty fenced block) is truthy, so `call_cortex_complete` does not raise,
and extraction yields the empty string, which is returned: the function
can return an empty SQL string, and the "empty after extraction" case is
not an error. -/
theorem call_cortex_complete_returns_empty_string :
    call_cortex_complete (.ok (some ("``````"))) = .ok ("") := by decide

/-- C8 (amended).  `call_cortex_complete` propagates a failed or
timed-out remote call, raises on a missing or empty raw payload, and on
any non-empty payload returns `cortexExtract` of it — the fenced-block /
quote stripping and whitespace collapse — in particular mapping
`"```sql\nSELECT 1\n```"` to exactly `SELECT 1` (the extracted text may
itself be empty, and is then returned as-is). -/
theorem call_cortex_complete_spec :
    call_cortex_complete (.error ()) = .error () ∧
    call_cortex_complete (.ok none) = .error () ∧
    call_cortex_complete (.ok (some (""))) = .error () ∧
    (∀ raw : String, raw ≠ "" →
      call_cortex_complete (.ok (some raw)) = .ok (cortexExtract raw)) ∧
    cortexExtract ("```sql\nSELECT 1\n```") = "SELECT 1" := by
  refine ⟨rfl, rfl, rfl, ?_, by decide⟩
  intro raw hraw
  simp [call_cortex_complete, hraw]

/-- Witness for C8 (amended): the non-empty fenced payload is extracted
through the quantified clause. -/
theorem call_cortex_complete_spec_witness :
    call_cortex_complete (.ok (some ("```sql\nSELECT 1\n```"))) =
      .ok (cortexExtract ("```sql\nSELECT 1\n```")) :=
  call_cortex_complete_spec.2.2.2.1 ("```sql\nSELECT 1\n```")
    (by decide)

end CortexGenerator
